import Mathlib

/-!
Verification development for the DPSW (data-path L2 switch) command/response
marshaling layer (`drivers/staging/fsl-dpaa2/ethsw/dpsw.c` and `dpsw.h`).

The source files give the per-operation command builders, the interface-set
bitmap builder, the MAC-address byte reversal and the ACL key flattening.
The companion header `dpsw-cmd.h` (numeric command ids, payload struct byte
layouts, bit-field shift/size constants) and the MC transport (`linux/fsl/mc.h`)
are not part of the repository snapshot; those pieces are modelled from the
specification and are marked as such in their doc comments.

All machine integers are modelled as `Nat`, with explicit truncation
(`% 2 ^ w`) exactly where the C code performs a conversion or a store into a
fixed-width slot.
-/

/-- Modelled from the spec: the little-endian scalar codec of `linux/byteorder`
(absent from the snapshot).  At the value level a little-endian store of a
16-bit quantity keeps exactly its low 16 bits. -/
def cpu_to_le16 (x : Nat) : Nat := x % 2 ^ 16

/-- Modelled from the spec: little-endian store of a 32-bit scalar. -/
def cpu_to_le32 (x : Nat) : Nat := x % 2 ^ 32

/-- Modelled from the spec: little-endian store of a 64-bit scalar. -/
def cpu_to_le64 (x : Nat) : Nat := x % 2 ^ 64

/-- Modelled from the spec: little-endian read of a 16-bit scalar. -/
def le16_to_cpu (x : Nat) : Nat := x % 2 ^ 16

/-- Modelled from the spec: little-endian read of a 32-bit scalar. -/
def le32_to_cpu (x : Nat) : Nat := x % 2 ^ 32

/-- Modelled from the spec: little-endian read of a 64-bit scalar. -/
def le64_to_cpu (x : Nat) : Nat := x % 2 ^ 64

/-- `BIT_MASK(nr)` from `linux/bits.h` (absent from the snapshot) on a 64-bit
machine word: `1UL << (nr % BITS_PER_LONG)` with `BITS_PER_LONG = 64`. -/
def BIT_MASK (nr : Nat) : Nat := 1 <<< (nr % 64)

/-- Bit mask covering bits `[shift, shift + size)`, the `DPSW_MASK(field)`
of the absent `dpsw-cmd.h`, modelled from the spec (§4.2). -/
def DPSW_MASK (shift size : Nat) : Nat := ((1 <<< size) - 1) <<< shift

/-- Modelled from the spec (§4.2): the `dpsw_set_field` macro of the absent
`dpsw-cmd.h`.  Writes the `size`-bit value `v` at bit offset `shift` of the
`width`-bit slot `slot`, leaving the other bits of the slot untouched.
`slot ^^^ (slot &&& mask)` clears the mask bits (as C `slot & ~mask` does), and the
final `% 2 ^ width` is the store back into the width-bit storage slot. -/
def dpsw_set_field (width slot shift size v : Nat) : Nat :=
  ((slot ^^^ (slot &&& DPSW_MASK shift size)) ||| ((v <<< shift) &&& DPSW_MASK shift size))
    % 2 ^ width

/-- Modelled from the spec (§4.2): the `dpsw_get_field` macro of the absent
`dpsw-cmd.h`: `(slot & mask) >> shift`. -/
def dpsw_get_field (slot shift size : Nat) : Nat :=
  (slot &&& DPSW_MASK shift size) >>> shift

/-- Modelled from the spec: bit positions of the sub-byte fields, declared in
the absent `dpsw-cmd.h`.  The TCI triple (VLAN_ID 12 bits, DEI 1 bit, PCP
3 bits) follows the IEEE 802.1Q Tag Control Information layout named by the
spec; the flag and enum fields are packed from bit 0 of their slot. -/
def DPSW_VLAN_ID_SHIFT : Nat := 0

def DPSW_VLAN_ID_SIZE : Nat := 12

def DPSW_DEI_SHIFT : Nat := 12

def DPSW_DEI_SIZE : Nat := 1

def DPSW_PCP_SHIFT : Nat := 13

def DPSW_PCP_SIZE : Nat := 3

def DPSW_ENABLE_SHIFT : Nat := 0

def DPSW_ENABLE_SIZE : Nat := 1

def DPSW_ACCEPT_ALL_VLAN_SHIFT : Nat := 1

def DPSW_ACCEPT_ALL_VLAN_SIZE : Nat := 1

def DPSW_ADMIT_UNTAGGED_SHIFT : Nat := 2

def DPSW_ADMIT_UNTAGGED_SIZE : Nat := 4

def DPSW_COMPONENT_TYPE_SHIFT : Nat := 0

def DPSW_COMPONENT_TYPE_SIZE : Nat := 4

def DPSW_STATE_SHIFT : Nat := 0

def DPSW_STATE_SIZE : Nat := 4

def DPSW_COUNTER_TYPE_SHIFT : Nat := 0

def DPSW_COUNTER_TYPE_SIZE : Nat := 5

def DPSW_ENTRY_TYPE_SHIFT : Nat := 0

def DPSW_ENTRY_TYPE_SIZE : Nat := 4

def DPSW_LEARNING_MODE_SHIFT : Nat := 0

def DPSW_LEARNING_MODE_SIZE : Nat := 4

def DPSW_RESULT_ACTION_SHIFT : Nat := 0

def DPSW_RESULT_ACTION_SIZE : Nat := 4

def DPSW_UP_SHIFT : Nat := 0

def DPSW_UP_SIZE : Nat := 1

/-- `DPSW_MAX_IF` from `dpsw.h`: maximum number of interfaces. -/
def DPSW_MAX_IF : Nat := 64

/-- Modelled from the spec (§4.1): the command identifiers `DPSW_CMDID_*` of
the absent `dpsw-cmd.h`, one value per identifier referenced by `dpsw.c`.
The spec calls each of them a "fixed, operation-specific command identifier",
so they are modelled as distinct values of an enumerated type. -/
inductive DpswCmdId where
  | OPEN
  | CLOSE
  | ENABLE
  | DISABLE
  | RESET
  | SET_IRQ_ENABLE
  | SET_IRQ_MASK
  | GET_IRQ_STATUS
  | CLEAR_IRQ_STATUS
  | GET_ATTR
  | IF_GET_ATTR
  | IF_SET_LINK_CFG
  | IF_GET_LINK_STATE
  | IF_SET_FLOODING
  | IF_SET_BROADCAST
  | IF_SET_TCI
  | IF_GET_TCI
  | IF_SET_STP
  | IF_GET_COUNTER
  | IF_ENABLE
  | IF_DISABLE
  | IF_SET_MAX_FRAME_LENGTH
  | VLAN_ADD
  | VLAN_ADD_IF
  | VLAN_ADD_IF_UNTAGGED
  | VLAN_REMOVE_IF
  | VLAN_REMOVE_IF_UNTAGGED
  | VLAN_REMOVE
  | FDB_ADD_UNICAST
  | FDB_DUMP
  | FDB_REMOVE_UNICAST
  | FDB_ADD_MULTICAST
  | FDB_REMOVE_MULTICAST
  | FDB_SET_LEARNING_MODE
  | GET_API_VERSION
  | IF_GET_PORT_MAC_ADDR
  | IF_SET_PRIMARY_MAC_ADDR
  | ACL_ADD
  | ACL_REMOVE
  | ACL_ADD_IF
  | ACL_REMOVE_IF
  | ACL_ADD_ENTRY
  deriving DecidableEq

/-- Modelled from the spec (§4.1): the transport-level command header built by
`mc_encode_cmd_header` of the absent `linux/fsl/mc.h` — command id, flags and
session token. -/
structure mc_cmd_header where
  cmd_id : DpswCmdId
  cmd_flags : Nat
  token : Nat
  deriving DecidableEq

/-- Modelled from the spec (§4.1): header encode is a pure record build with
no validation. -/
def mc_encode_cmd_header (c : DpswCmdId) (cmd_flags token : Nat) : mc_cmd_header :=
  { cmd_id := c, cmd_flags := cmd_flags, token := token }

/-- Modelled from the spec (§4.1): `mc_cmd_hdr_read_token` extracts the 16-bit
session token from the header of a completed command buffer. -/
def mc_cmd_hdr_read_token (hdr_token_field : Nat) : Nat := hdr_token_field % 2 ^ 16

/-- One step of the `build_if_id_bitmap` loop body (`dpsw.c` lines 18-21):
`if (id[i] < DPSW_MAX_IF) bmap[id[i] / 64] |= cpu_to_le64(BIT_MASK(id[i] % 64));`.
The bitmap is the word-indexed array of 64-bit little-endian words. -/
def build_step (bmap : Nat → Nat) (idv : Nat) : Nat → Nat :=
  if idv < DPSW_MAX_IF then
    fun w => if w = idv / 64 then bmap (idv / 64) ||| cpu_to_le64 (BIT_MASK (idv % 64))
             else bmap w
  else bmap

/-- `build_if_id_bitmap` from `dpsw.c` lines 12-22.  The C loop
`for (i = 0; (i < num_ifs) && (i < DPSW_MAX_IF); i++)` visits exactly the
first `min num_ifs DPSW_MAX_IF` entries of `id`. -/
def build_if_id_bitmap (bmap : Nat → Nat) (id : List Nat) (num_ifs : Nat) : Nat → Nat :=
  (List.take (min num_ifs DPSW_MAX_IF) id).foldl build_step bmap

/-- The MAC-address wire encoding used by every MAC-carrying command of
`dpsw.c` (e.g. lines 1023-1024): `wire[i] = host[5 - i]`. -/
def mac_to_wire (mac : Fin 6 → Nat) : Fin 6 → Nat :=
  fun i => mac ⟨5 - i.val, by omega⟩

/-- The MAC-address wire decoding used by the MAC-returning commands of
`dpsw.c` (e.g. lines 1298-1299): `host[5 - i] = wire[i]`, i.e.
`host[j] = wire[5 - j]`. -/
def mac_from_wire (wire : Fin 6 → Nat) : Fin 6 → Nat :=
  fun j => wire ⟨5 - j.val, by omega⟩

/-! ## Caller-side structures, from `dpsw.h` (enum fields modelled as `Nat`) -/

/-- `struct dpsw_attr` (`dpsw.h`). -/
structure dpsw_attr where
  id : Nat
  options : Nat
  max_vlans : Nat
  max_meters_per_if : Nat
  max_fdbs : Nat
  max_fdb_entries : Nat
  fdb_aging_time : Nat
  max_fdb_mc_groups : Nat
  num_ifs : Nat
  mem_size : Nat
  num_vlans : Nat
  num_fdbs : Nat
  component_type : Nat
  deriving DecidableEq

/-- `struct dpsw_if_attr` (`dpsw.h`). -/
structure dpsw_if_attr where
  num_tcs : Nat
  rate : Nat
  options : Nat
  enabled : Nat
  accept_all_vlan : Nat
  admit_untagged : Nat
  qdid : Nat
  deriving DecidableEq

/-- `struct dpsw_link_cfg` (`dpsw.h`). -/
structure dpsw_link_cfg where
  rate : Nat
  options : Nat
  deriving DecidableEq

/-- `struct dpsw_link_state` (`dpsw.h`). -/
structure dpsw_link_state where
  rate : Nat
  options : Nat
  up : Nat
  deriving DecidableEq

/-- `struct dpsw_tci_cfg` (`dpsw.h`). -/
structure dpsw_tci_cfg where
  pcp : Nat
  dei : Nat
  vlan_id : Nat
  deriving DecidableEq

/-- `struct dpsw_stp_cfg` (`dpsw.h`). -/
structure dpsw_stp_cfg where
  vlan_id : Nat
  state : Nat
  deriving DecidableEq

/-- `struct dpsw_vlan_cfg` (`dpsw.h`). -/
structure dpsw_vlan_cfg where
  fdb_id : Nat
  deriving DecidableEq

/-- `struct dpsw_vlan_if_cfg` (`dpsw.h`); the `u16 if_id[DPSW_MAX_IF]` array is
modelled as a list of interface indices. -/
structure dpsw_vlan_if_cfg where
  num_ifs : Nat
  if_id : List Nat
  deriving DecidableEq

/-- `struct dpsw_fdb_unicast_cfg` (`dpsw.h`). -/
structure dpsw_fdb_unicast_cfg where
  type : Nat
  mac_addr : Fin 6 → Nat
  if_egress : Nat

/-- `struct dpsw_fdb_multicast_cfg` (`dpsw.h`). -/
structure dpsw_fdb_multicast_cfg where
  type : Nat
  mac_addr : Fin 6 → Nat
  num_ifs : Nat
  if_id : List Nat

/-- `struct dpsw_acl_cfg` (`dpsw.h`). -/
structure dpsw_acl_cfg where
  max_entries : Nat
  deriving DecidableEq

/-- `struct dpsw_acl_if_cfg` (`dpsw.h`). -/
structure dpsw_acl_if_cfg where
  num_ifs : Nat
  if_id : List Nat
  deriving DecidableEq

/-- `struct dpsw_acl_fields` (`dpsw.h`). -/
structure dpsw_acl_fields where
  l2_dest_mac : Fin 6 → Nat
  l2_source_mac : Fin 6 → Nat
  l2_tpid : Nat
  l2_pcp_dei : Nat
  l2_vlan_id : Nat
  l2_ether_type : Nat
  l3_dscp : Nat
  l3_protocol : Nat
  l3_source_ip : Nat
  l3_dest_ip : Nat
  l4_source_port : Nat
  l4_dest_port : Nat
  frame_flags : Nat

/-- `struct dpsw_acl_key` (`dpsw.h`); the source field `match` is a Lean
keyword, so it is rendered `match_f` here. -/
structure dpsw_acl_key where
  match_f : dpsw_acl_fields
  mask : dpsw_acl_fields

/-- `struct dpsw_acl_result` (`dpsw.h`). -/
structure dpsw_acl_result where
  action : Nat
  if_id : Nat
  lookup_table : Nat
  deriving DecidableEq

/-- `struct dpsw_acl_entry_cfg` (`dpsw.h`). -/
structure dpsw_acl_entry_cfg where
  key_iova : Nat
  result : dpsw_acl_result
  precedence : Nat
  deriving DecidableEq

/-! ## Command/response payload structures.

The byte layouts live in the absent `dpsw-cmd.h`; each structure below is
modelled from the spec (§3, §4.6: command-id-specific fixed payloads) with
exactly the fields `dpsw.c` reads or writes, at the value level. -/

/-- Payload of OPEN (`struct dpsw_cmd_open`). -/
structure dpsw_cmd_open where
  dpsw_id : Nat
  deriving DecidableEq

/-- Payload of SET_IRQ_ENABLE (`struct dpsw_cmd_set_irq_enable`). -/
structure dpsw_cmd_set_irq_enable where
  enable_state : Nat
  irq_index : Nat
  deriving DecidableEq

/-- Payload of SET_IRQ_MASK (`struct dpsw_cmd_set_irq_mask`). -/
structure dpsw_cmd_set_irq_mask where
  mask : Nat
  irq_index : Nat
  deriving DecidableEq

/-- Request payload of GET_IRQ_STATUS (`struct dpsw_cmd_get_irq_status`). -/
structure dpsw_cmd_get_irq_status where
  status : Nat
  irq_index : Nat
  deriving DecidableEq

/-- Response payload of GET_IRQ_STATUS (`struct dpsw_rsp_get_irq_status`). -/
structure dpsw_rsp_get_irq_status where
  status : Nat
  deriving DecidableEq

/-- Payload of CLEAR_IRQ_STATUS (`struct dpsw_cmd_clear_irq_status`). -/
structure dpsw_cmd_clear_irq_status where
  status : Nat
  irq_index : Nat
  deriving DecidableEq

/-- Response payload of GET_ATTR (`struct dpsw_rsp_get_attr`). -/
structure dpsw_rsp_get_attr where
  num_ifs : Nat
  max_fdbs : Nat
  num_fdbs : Nat
  max_vlans : Nat
  num_vlans : Nat
  max_fdb_entries : Nat
  fdb_aging_time : Nat
  dpsw_id : Nat
  mem_size : Nat
  max_fdb_mc_groups : Nat
  max_meters_per_if : Nat
  options : Nat
  component_type : Nat
  deriving DecidableEq

/-- Interface-selector payload (`struct dpsw_cmd_if`), shared by several
commands. -/
structure dpsw_cmd_if where
  if_id : Nat
  deriving DecidableEq

/-- Response payload of IF_GET_ATTR (`struct dpsw_rsp_if_get_attr`). -/
structure dpsw_rsp_if_get_attr where
  num_tcs : Nat
  rate : Nat
  options : Nat
  qdid : Nat
  conf : Nat
  deriving DecidableEq

/-- Payload of IF_SET_LINK_CFG (`struct dpsw_cmd_if_set_link_cfg`). -/
structure dpsw_cmd_if_set_link_cfg where
  if_id : Nat
  rate : Nat
  options : Nat
  deriving DecidableEq

/-- Request payload of IF_GET_LINK_STATE (`struct dpsw_cmd_if_get_link_state`). -/
structure dpsw_cmd_if_get_link_state where
  if_id : Nat
  deriving DecidableEq

/-- Response payload of IF_GET_LINK_STATE (`struct dpsw_rsp_if_get_link_state`). -/
structure dpsw_rsp_if_get_link_state where
  rate : Nat
  options : Nat
  up : Nat
  deriving DecidableEq

/-- Payload of IF_SET_FLOODING (`struct dpsw_cmd_if_set_flooding`). -/
structure dpsw_cmd_if_set_flooding where
  if_id : Nat
  enable : Nat
  deriving DecidableEq

/-- Payload of IF_SET_BROADCAST (`struct dpsw_cmd_if_set_broadcast`). -/
structure dpsw_cmd_if_set_broadcast where
  if_id : Nat
  enable : Nat
  deriving DecidableEq

/-- Payload of IF_SET_TCI (`struct dpsw_cmd_if_set_tci`). -/
structure dpsw_cmd_if_set_tci where
  if_id : Nat
  conf : Nat
  deriving DecidableEq

/-- Request payload of IF_GET_TCI (`struct dpsw_cmd_if_get_tci`). -/
structure dpsw_cmd_if_get_tci where
  if_id : Nat
  deriving DecidableEq

/-- Response payload of IF_GET_TCI (`struct dpsw_rsp_if_get_tci`). -/
structure dpsw_rsp_if_get_tci where
  pcp : Nat
  dei : Nat
  vlan_id : Nat
  deriving DecidableEq

/-- Payload of IF_SET_STP (`struct dpsw_cmd_if_set_stp`). -/
structure dpsw_cmd_if_set_stp where
  if_id : Nat
  vlan_id : Nat
  state : Nat
  deriving DecidableEq

/-- Request payload of IF_GET_COUNTER (`struct dpsw_cmd_if_get_counter`). -/
structure dpsw_cmd_if_get_counter where
  if_id : Nat
  type : Nat
  deriving DecidableEq

/-- Response payload of IF_GET_COUNTER (`struct dpsw_rsp_if_get_counter`). -/
structure dpsw_rsp_if_get_counter where
  counter : Nat
  deriving DecidableEq

/-- Payload of IF_SET_MAX_FRAME_LENGTH (`struct dpsw_cmd_if_set_max_frame_length`). -/
structure dpsw_cmd_if_set_max_frame_length where
  if_id : Nat
  frame_length : Nat
  deriving DecidableEq

/-- Payload of VLAN_ADD; the source names this struct `dpsw_vlan_add`, which
collides with the operation of the same name, hence the `cmd` marker. -/
structure dpsw_cmd_vlan_add where
  fdb_id : Nat
  vlan_id : Nat
  deriving DecidableEq

/-- Payload of the four VLAN membership commands
(`struct dpsw_cmd_vlan_manage_if`); `if_id` is the interface bitmap, an array
of 64-bit little-endian words indexed by word number. -/
structure dpsw_cmd_vlan_manage_if where
  vlan_id : Nat
  if_id : Nat → Nat

/-- Payload of VLAN_REMOVE (`struct dpsw_cmd_vlan_remove`). -/
structure dpsw_cmd_vlan_remove where
  vlan_id : Nat
  deriving DecidableEq

/-- Payload of FDB_ADD_UNICAST / FDB_REMOVE_UNICAST
(`struct dpsw_cmd_fdb_unicast_op`). -/
structure dpsw_cmd_fdb_unicast_op where
  fdb_id : Nat
  mac_addr : Fin 6 → Nat
  if_egress : Nat
  type : Nat

/-- Request payload of FDB_DUMP (`struct dpsw_cmd_fdb_dump`). -/
structure dpsw_cmd_fdb_dump where
  fdb_id : Nat
  iova_addr : Nat
  iova_size : Nat
  deriving DecidableEq

/-- Response payload of FDB_DUMP (`struct dpsw_rsp_fdb_dump`). -/
structure dpsw_rsp_fdb_dump where
  num_entries : Nat
  deriving DecidableEq

/-- Payload of FDB_ADD_MULTICAST / FDB_REMOVE_MULTICAST
(`struct dpsw_cmd_fdb_multicast_op`). -/
structure dpsw_cmd_fdb_multicast_op where
  fdb_id : Nat
  num_ifs : Nat
  type : Nat
  if_id : Nat → Nat
  mac_addr : Fin 6 → Nat

/-- Payload of FDB_SET_LEARNING_MODE (`struct dpsw_cmd_fdb_set_learning_mode`). -/
structure dpsw_cmd_fdb_set_learning_mode where
  fdb_id : Nat
  mode : Nat
  deriving DecidableEq

/-- Response payload of GET_API_VERSION (`struct dpsw_rsp_get_api_version`). -/
structure dpsw_rsp_get_api_version where
  version_major : Nat
  version_minor : Nat
  deriving DecidableEq

/-- Response payload of the MAC-address-returning commands
(`struct dpsw_rsp_if_get_mac_addr`). -/
structure dpsw_rsp_if_get_mac_addr where
  mac_addr : Fin 6 → Nat

/-- Payload of IF_SET_PRIMARY_MAC_ADDR (`struct dpsw_cmd_if_set_mac_addr`). -/
structure dpsw_cmd_if_set_mac_addr where
  if_id : Nat
  mac_addr : Fin 6 → Nat

/-- Request payload of ACL_ADD (`struct dpsw_cmd_acl_add`). -/
structure dpsw_cmd_acl_add where
  max_entries : Nat
  deriving DecidableEq

/-- Response payload of ACL_ADD (`struct dpsw_rsp_acl_add`). -/
structure dpsw_rsp_acl_add where
  acl_id : Nat
  deriving DecidableEq

/-- Payload of ACL_REMOVE (`struct dpsw_cmd_acl_remove`). -/
structure dpsw_cmd_acl_remove where
  acl_id : Nat
  deriving DecidableEq

/-- Payload of ACL_ADD_IF / ACL_REMOVE_IF (`struct dpsw_cmd_acl_if`). -/
structure dpsw_cmd_acl_if where
  acl_id : Nat
  num_ifs : Nat
  if_id : Nat → Nat

/-- The flattened ACL key (`struct dpsw_prep_acl_entry`), the record of fields
written by `dpsw_acl_prepare_entry_cfg`. -/
structure dpsw_prep_acl_entry where
  match_l2_dest_mac : Fin 6 → Nat
  match_l2_source_mac : Fin 6 → Nat
  mask_l2_dest_mac : Fin 6 → Nat
  mask_l2_source_mac : Fin 6 → Nat
  match_l2_tpid : Nat
  match_l2_vlan_id : Nat
  match_l3_dest_ip : Nat
  match_l3_source_ip : Nat
  match_l4_dest_port : Nat
  match_l4_source_port : Nat
  match_l2_ether_type : Nat
  match_l2_pcp_dei : Nat
  match_l3_dscp : Nat
  mask_l2_tpid : Nat
  mask_l2_vlan_id : Nat
  mask_l3_dest_ip : Nat
  mask_l3_source_ip : Nat
  mask_l4_dest_port : Nat
  mask_l4_source_port : Nat
  mask_l2_ether_type : Nat
  mask_l2_pcp_dei : Nat
  mask_l3_dscp : Nat
  match_l3_protocol : Nat
  mask_l3_protocol : Nat
  match_frame_flags : Nat
  mask_frame_flags : Nat

/-- Payload of ACL_ADD_ENTRY (`struct dpsw_cmd_acl_entry`). -/
structure dpsw_cmd_acl_entry where
  acl_id : Nat
  result_if_id : Nat
  precedence : Nat
  key_iova : Nat
  result_action : Nat
  deriving DecidableEq

/-! ## Public operations.

Each C function is embedded as a pure function of its inputs plus the
transport outcome: `err` is the status `mc_send_command` returns, and for
operations that decode a response, `rsp` is the payload the transport leaves
in the command buffer (the transport itself is an external collaborator, out
of scope per spec §1).  The result records the submitted header and payload,
the returned status, and the final values of the caller output parameters
(equal to their incoming values whenever the C code returns early on
`err != 0`). -/

/-- Result of one operation: submitted header and payload, returned status,
and the output values of the operation. -/
structure DpswCall (P O : Type) where
  hdr : mc_cmd_header
  params : P
  ret : Int
  out : O

/-- `dpsw_open` (`dpsw.c` lines 41-66).  Encodes token 0; on success decodes
the session token from the response header (`rsp_hdr_token`). -/
def dpsw_open (cmd_flags dpsw_id token_in : Nat) (err : Int) (rsp_hdr_token : Nat) :
    DpswCall dpsw_cmd_open Nat :=
  { hdr := mc_encode_cmd_header DpswCmdId.OPEN cmd_flags 0,
    params := { dpsw_id := cpu_to_le32 dpsw_id },
    ret := if err ≠ 0 then err else 0,
    out := if err ≠ 0 then token_in else mc_cmd_hdr_read_token rsp_hdr_token }

/-- `dpsw_close` (`dpsw.c` lines 79-92). -/
def dpsw_close (cmd_flags token : Nat) (err : Int) : DpswCall Unit Unit :=
  { hdr := mc_encode_cmd_header DpswCmdId.CLOSE cmd_flags token,
    params := (), ret := err, out := () }

/-- `dpsw_enable` (`dpsw.c` lines 102-115). -/
def dpsw_enable (cmd_flags token : Nat) (err : Int) : DpswCall Unit Unit :=
  { hdr := mc_encode_cmd_header DpswCmdId.ENABLE cmd_flags token,
    params := (), ret := err, out := () }

/-- `dpsw_disable` (`dpsw.c` lines 125-138). -/
def dpsw_disable (cmd_flags token : Nat) (err : Int) : DpswCall Unit Unit :=
  { hdr := mc_encode_cmd_header DpswCmdId.DISABLE cmd_flags token,
    params := (), ret := err, out := () }

/-- `dpsw_reset` (`dpsw.c` lines 148-161). -/
def dpsw_reset (cmd_flags token : Nat) (err : Int) : DpswCall Unit Unit :=
  { hdr := mc_encode_cmd_header DpswCmdId.RESET cmd_flags token,
    params := (), ret := err, out := () }

/-- `dpsw_set_irq_enable` (`dpsw.c` lines 178-197); `enable_state` is a `u8`
slot written through the ENABLE bit-field. -/
def dpsw_set_irq_enable (cmd_flags token irq_index en : Nat) (err : Int) :
    DpswCall dpsw_cmd_set_irq_enable Unit :=
  { hdr := mc_encode_cmd_header DpswCmdId.SET_IRQ_ENABLE cmd_flags token,
    params := { enable_state := dpsw_set_field 8 0 DPSW_ENABLE_SHIFT DPSW_ENABLE_SIZE en,
                irq_index := irq_index },
    ret := err, out := () }

/-- `dpsw_set_irq_mask` (`dpsw.c` lines 215-234). -/
def dpsw_set_irq_mask (cmd_flags token irq_index mask : Nat) (err : Int) :
    DpswCall dpsw_cmd_set_irq_mask Unit :=
  { hdr := mc_encode_cmd_header DpswCmdId.SET_IRQ_MASK cmd_flags token,
    params := { mask := cpu_to_le32 mask, irq_index := irq_index },
    ret := err, out := () }

/-- `dpsw_get_irq_status` (`dpsw.c` lines 248-277).  The incoming `*status`
is encoded into the request payload (`cmd_params->status = cpu_to_le32(*status)`)
before submission; on success `*status` is overwritten from the response. -/
def dpsw_get_irq_status (cmd_flags token irq_index status_in : Nat) (err : Int)
    (rsp : dpsw_rsp_get_irq_status) : DpswCall dpsw_cmd_get_irq_status Nat :=
  { hdr := mc_encode_cmd_header DpswCmdId.GET_IRQ_STATUS cmd_flags token,
    params := { status := cpu_to_le32 status_in, irq_index := irq_index },
    ret := if err ≠ 0 then err else 0,
    out := if err ≠ 0 then status_in else le32_to_cpu rsp.status }

/-- `dpsw_clear_irq_status` (`dpsw.c` lines 291-310). -/
def dpsw_clear_irq_status (cmd_flags token irq_index status : Nat) (err : Int) :
    DpswCall dpsw_cmd_clear_irq_status Unit :=
  { hdr := mc_encode_cmd_header DpswCmdId.CLEAR_IRQ_STATUS cmd_flags token,
    params := { status := cpu_to_le32 status, irq_index := irq_index },
    ret := err, out := () }

/-- `dpsw_get_attributes` (`dpsw.c` lines 321-358). -/
def dpsw_get_attributes (cmd_flags token : Nat) (attr_in : dpsw_attr) (err : Int)
    (rsp : dpsw_rsp_get_attr) : DpswCall Unit dpsw_attr :=
  { hdr := mc_encode_cmd_header DpswCmdId.GET_ATTR cmd_flags token,
    params := (),
    ret := if err ≠ 0 then err else 0,
    out := if err ≠ 0 then attr_in else
      { num_ifs := le16_to_cpu rsp.num_ifs,
        max_fdbs := rsp.max_fdbs,
        num_fdbs := rsp.num_fdbs,
        max_vlans := le16_to_cpu rsp.max_vlans,
        num_vlans := le16_to_cpu rsp.num_vlans,
        max_fdb_entries := le16_to_cpu rsp.max_fdb_entries,
        fdb_aging_time := le16_to_cpu rsp.fdb_aging_time,
        id := le32_to_cpu rsp.dpsw_id,
        mem_size := le16_to_cpu rsp.mem_size,
        max_fdb_mc_groups := le16_to_cpu rsp.max_fdb_mc_groups,
        max_meters_per_if := rsp.max_meters_per_if,
        options := le64_to_cpu rsp.options,
        component_type :=
          dpsw_get_field rsp.component_type DPSW_COMPONENT_TYPE_SHIFT DPSW_COMPONENT_TYPE_SIZE } }

/-- `dpsw_if_get_attributes` (`dpsw.c` lines 370-406). -/
def dpsw_if_get_attributes (cmd_flags token if_id : Nat) (attr_in : dpsw_if_attr) (err : Int)
    (rsp : dpsw_rsp_if_get_attr) : DpswCall dpsw_cmd_if dpsw_if_attr :=
  { hdr := mc_encode_cmd_header DpswCmdId.IF_GET_ATTR cmd_flags token,
    params := { if_id := cpu_to_le16 if_id },
    ret := if err ≠ 0 then err else 0,
    out := if err ≠ 0 then attr_in else
      { num_tcs := rsp.num_tcs,
        rate := le32_to_cpu rsp.rate,
        options := le32_to_cpu rsp.options,
        qdid := le16_to_cpu rsp.qdid,
        enabled := dpsw_get_field rsp.conf DPSW_ENABLE_SHIFT DPSW_ENABLE_SIZE,
        accept_all_vlan :=
          dpsw_get_field rsp.conf DPSW_ACCEPT_ALL_VLAN_SHIFT DPSW_ACCEPT_ALL_VLAN_SIZE,
        admit_untagged :=
          dpsw_get_field rsp.conf DPSW_ADMIT_UNTAGGED_SHIFT DPSW_ADMIT_UNTAGGED_SIZE } }

/-- `dpsw_if_set_link_cfg` (`dpsw.c` lines 418-438). -/
def dpsw_if_set_link_cfg (cmd_flags token if_id : Nat) (cfg : dpsw_link_cfg) (err : Int) :
    DpswCall dpsw_cmd_if_set_link_cfg Unit :=
  { hdr := mc_encode_cmd_header DpswCmdId.IF_SET_LINK_CFG cmd_flags token,
    params := { if_id := cpu_to_le16 if_id,
                rate := cpu_to_le32 cfg.rate,
                options := cpu_to_le64 cfg.options },
    ret := err, out := () }

/-- `dpsw_if_get_link_state` (`dpsw.c` lines 450-480). -/
def dpsw_if_get_link_state (cmd_flags token if_id : Nat) (state_in : dpsw_link_state)
    (err : Int) (rsp : dpsw_rsp_if_get_link_state) :
    DpswCall dpsw_cmd_if_get_link_state dpsw_link_state :=
  { hdr := mc_encode_cmd_header DpswCmdId.IF_GET_LINK_STATE cmd_flags token,
    params := { if_id := cpu_to_le16 if_id },
    ret := if err ≠ 0 then err else 0,
    out := if err ≠ 0 then state_in else
      { rate := le32_to_cpu rsp.rate,
        options := le64_to_cpu rsp.options,
        up := dpsw_get_field rsp.up DPSW_UP_SHIFT DPSW_UP_SIZE } }

/-- `dpsw_if_set_flooding` (`dpsw.c` lines 492-511). -/
def dpsw_if_set_flooding (cmd_flags token if_id en : Nat) (err : Int) :
    DpswCall dpsw_cmd_if_set_flooding Unit :=
  { hdr := mc_encode_cmd_header DpswCmdId.IF_SET_FLOODING cmd_flags token,
    params := { if_id := cpu_to_le16 if_id,
                enable := dpsw_set_field 8 0 DPSW_ENABLE_SHIFT DPSW_ENABLE_SIZE en },
    ret := err, out := () }

/-- `dpsw_if_set_broadcast` (`dpsw.c` lines 523-542). -/
def dpsw_if_set_broadcast (cmd_flags token if_id en : Nat) (err : Int) :
    DpswCall dpsw_cmd_if_set_broadcast Unit :=
  { hdr := mc_encode_cmd_header DpswCmdId.IF_SET_BROADCAST cmd_flags token,
    params := { if_id := cpu_to_le16 if_id,
                enable := dpsw_set_field 8 0 DPSW_ENABLE_SHIFT DPSW_ENABLE_SIZE en },
    ret := err, out := () }

/-- The TCI slot built by `dpsw_if_set_tci` (`dpsw.c` lines 562-573):
`u16 tmp_conf = 0`, then VLAN_ID, DEI and PCP are written in that order. -/
def dpsw_if_set_tci_conf (cfg : dpsw_tci_cfg) : Nat :=
  dpsw_set_field 16
    (dpsw_set_field 16
      (dpsw_set_field 16 0 DPSW_VLAN_ID_SHIFT DPSW_VLAN_ID_SIZE cfg.vlan_id)
      DPSW_DEI_SHIFT DPSW_DEI_SIZE cfg.dei)
    DPSW_PCP_SHIFT DPSW_PCP_SIZE cfg.pcp

/-- `dpsw_if_set_tci` (`dpsw.c` lines 554-577). -/
def dpsw_if_set_tci (cmd_flags token if_id : Nat) (cfg : dpsw_tci_cfg) (err : Int) :
    DpswCall dpsw_cmd_if_set_tci Unit :=
  { hdr := mc_encode_cmd_header DpswCmdId.IF_SET_TCI cmd_flags token,
    params := { if_id := cpu_to_le16 if_id,
                conf := cpu_to_le16 (dpsw_if_set_tci_conf cfg) },
    ret := err, out := () }

/-- `dpsw_if_get_tci` (`dpsw.c` lines 589-619). -/
def dpsw_if_get_tci (cmd_flags token if_id : Nat) (cfg_in : dpsw_tci_cfg) (err : Int)
    (rsp : dpsw_rsp_if_get_tci) : DpswCall dpsw_cmd_if_get_tci dpsw_tci_cfg :=
  { hdr := mc_encode_cmd_header DpswCmdId.IF_GET_TCI cmd_flags token,
    params := { if_id := cpu_to_le16 if_id },
    ret := if err ≠ 0 then err else 0,
    out := if err ≠ 0 then cfg_in else
      { pcp := rsp.pcp, dei := rsp.dei, vlan_id := le16_to_cpu rsp.vlan_id } }

/-- `dpsw_if_set_stp` (`dpsw.c` lines 634-654). -/
def dpsw_if_set_stp (cmd_flags token if_id : Nat) (cfg : dpsw_stp_cfg) (err : Int) :
    DpswCall dpsw_cmd_if_set_stp Unit :=
  { hdr := mc_encode_cmd_header DpswCmdId.IF_SET_STP cmd_flags token,
    params := { if_id := cpu_to_le16 if_id,
                vlan_id := cpu_to_le16 cfg.vlan_id,
                state := dpsw_set_field 8 0 DPSW_STATE_SHIFT DPSW_STATE_SIZE cfg.state },
    ret := err, out := () }

/-- `dpsw_if_get_counter` (`dpsw.c` lines 667-697). -/
def dpsw_if_get_counter (cmd_flags token if_id type counter_in : Nat) (err : Int)
    (rsp : dpsw_rsp_if_get_counter) : DpswCall dpsw_cmd_if_get_counter Nat :=
  { hdr := mc_encode_cmd_header DpswCmdId.IF_GET_COUNTER cmd_flags token,
    params := { if_id := cpu_to_le16 if_id,
                type := dpsw_set_field 8 0 DPSW_COUNTER_TYPE_SHIFT DPSW_COUNTER_TYPE_SIZE type },
    ret := if err ≠ 0 then err else 0,
    out := if err ≠ 0 then counter_in else le64_to_cpu rsp.counter }

/-- `dpsw_if_enable` (`dpsw.c` lines 708-725). -/
def dpsw_if_enable (cmd_flags token if_id : Nat) (err : Int) : DpswCall dpsw_cmd_if Unit :=
  { hdr := mc_encode_cmd_header DpswCmdId.IF_ENABLE cmd_flags token,
    params := { if_id := cpu_to_le16 if_id },
    ret := err, out := () }

/-- `dpsw_if_disable` (`dpsw.c` lines 736-753). -/
def dpsw_if_disable (cmd_flags token if_id : Nat) (err : Int) : DpswCall dpsw_cmd_if Unit :=
  { hdr := mc_encode_cmd_header DpswCmdId.IF_DISABLE cmd_flags token,
    params := { if_id := cpu_to_le16 if_id },
    ret := err, out := () }

/-- `dpsw_if_set_max_frame_length` (`dpsw.c` lines 765-784). -/
def dpsw_if_set_max_frame_length (cmd_flags token if_id frame_length : Nat) (err : Int) :
    DpswCall dpsw_cmd_if_set_max_frame_length Unit :=
  { hdr := mc_encode_cmd_header DpswCmdId.IF_SET_MAX_FRAME_LENGTH cmd_flags token,
    params := { if_id := cpu_to_le16 if_id, frame_length := cpu_to_le16 frame_length },
    ret := err, out := () }

/-- `dpsw_vlan_add` (`dpsw.c` lines 803-822). -/
def dpsw_vlan_add (cmd_flags token vlan_id : Nat) (cfg : dpsw_vlan_cfg) (err : Int) :
    DpswCall dpsw_cmd_vlan_add Unit :=
  { hdr := mc_encode_cmd_header DpswCmdId.VLAN_ADD cmd_flags token,
    params := { fdb_id := cpu_to_le16 cfg.fdb_id, vlan_id := cpu_to_le16 vlan_id },
    ret := err, out := () }

/-- `dpsw_vlan_add_if` (`dpsw.c` lines 839-858); the zeroed command buffer
gives the all-zero initial bitmap. -/
def dpsw_vlan_add_if (cmd_flags token vlan_id : Nat) (cfg : dpsw_vlan_if_cfg) (err : Int) :
    DpswCall dpsw_cmd_vlan_manage_if Unit :=
  { hdr := mc_encode_cmd_header DpswCmdId.VLAN_ADD_IF cmd_flags token,
    params := { vlan_id := cpu_to_le16 vlan_id,
                if_id := build_if_id_bitmap (fun _ => 0) cfg.if_id cfg.num_ifs },
    ret := err, out := () }

/-- `dpsw_vlan_add_if_untagged` (`dpsw.c` lines 877-896). -/
def dpsw_vlan_add_if_untagged (cmd_flags token vlan_id : Nat) (cfg : dpsw_vlan_if_cfg)
    (err : Int) : DpswCall dpsw_cmd_vlan_manage_if Unit :=
  { hdr := mc_encode_cmd_header DpswCmdId.VLAN_ADD_IF_UNTAGGED cmd_flags token,
    params := { vlan_id := cpu_to_le16 vlan_id,
                if_id := build_if_id_bitmap (fun _ => 0) cfg.if_id cfg.num_ifs },
    ret := err, out := () }

/-- `dpsw_vlan_remove_if` (`dpsw.c` lines 911-930). -/
def dpsw_vlan_remove_if (cmd_flags token vlan_id : Nat) (cfg : dpsw_vlan_if_cfg) (err : Int) :
    DpswCall dpsw_cmd_vlan_manage_if Unit :=
  { hdr := mc_encode_cmd_header DpswCmdId.VLAN_REMOVE_IF cmd_flags token,
    params := { vlan_id := cpu_to_le16 vlan_id,
                if_id := build_if_id_bitmap (fun _ => 0) cfg.if_id cfg.num_ifs },
    ret := err, out := () }

/-- `dpsw_vlan_remove_if_untagged` (`dpsw.c` lines 947-966). -/
def dpsw_vlan_remove_if_untagged (cmd_flags token vlan_id : Nat) (cfg : dpsw_vlan_if_cfg)
    (err : Int) : DpswCall dpsw_cmd_vlan_manage_if Unit :=
  { hdr := mc_encode_cmd_header DpswCmdId.VLAN_REMOVE_IF_UNTAGGED cmd_flags token,
    params := { vlan_id := cpu_to_le16 vlan_id,
                if_id := build_if_id_bitmap (fun _ => 0) cfg.if_id cfg.num_ifs },
    ret := err, out := () }

/-- `dpsw_vlan_remove` (`dpsw.c` lines 977-994). -/
def dpsw_vlan_remove (cmd_flags token vlan_id : Nat) (err : Int) :
    DpswCall dpsw_cmd_vlan_remove Unit :=
  { hdr := mc_encode_cmd_header DpswCmdId.VLAN_REMOVE cmd_flags token,
    params := { vlan_id := cpu_to_le16 vlan_id },
    ret := err, out := () }

/-- `dpsw_fdb_add_unicast` (`dpsw.c` lines 1006-1029); the MAC bytes are
stored reversed: `cmd_params->mac_addr[i] = cfg->mac_addr[5 - i]`. -/
def dpsw_fdb_add_unicast (cmd_flags token fdb_id : Nat) (cfg : dpsw_fdb_unicast_cfg)
    (err : Int) : DpswCall dpsw_cmd_fdb_unicast_op Unit :=
  { hdr := mc_encode_cmd_header DpswCmdId.FDB_ADD_UNICAST cmd_flags token,
    params := { fdb_id := cpu_to_le16 fdb_id,
                if_egress := cpu_to_le16 cfg.if_egress,
                mac_addr := fun i => cfg.mac_addr ⟨5 - i.val, by omega⟩,
                type := dpsw_set_field 8 0 DPSW_ENTRY_TYPE_SHIFT DPSW_ENTRY_TYPE_SIZE cfg.type },
    ret := err, out := () }

/-- `dpsw_fdb_dump` (`dpsw.c` lines 1049-1080). -/
def dpsw_fdb_dump (cmd_flags token fdb_id iova_addr iova_size num_entries_in : Nat)
    (err : Int) (rsp : dpsw_rsp_fdb_dump) : DpswCall dpsw_cmd_fdb_dump Nat :=
  { hdr := mc_encode_cmd_header DpswCmdId.FDB_DUMP cmd_flags token,
    params := { fdb_id := cpu_to_le16 fdb_id,
                iova_addr := cpu_to_le64 iova_addr,
                iova_size := cpu_to_le32 iova_size },
    ret := if err ≠ 0 then err else 0,
    out := if err ≠ 0 then num_entries_in else le16_to_cpu rsp.num_entries }

/-- `dpsw_fdb_remove_unicast` (`dpsw.c` lines 1092-1115). -/
def dpsw_fdb_remove_unicast (cmd_flags token fdb_id : Nat) (cfg : dpsw_fdb_unicast_cfg)
    (err : Int) : DpswCall dpsw_cmd_fdb_unicast_op Unit :=
  { hdr := mc_encode_cmd_header DpswCmdId.FDB_REMOVE_UNICAST cmd_flags token,
    params := { fdb_id := cpu_to_le16 fdb_id,
                mac_addr := fun i => cfg.mac_addr ⟨5 - i.val, by omega⟩,
                if_egress := cpu_to_le16 cfg.if_egress,
                type := dpsw_set_field 8 0 DPSW_ENTRY_TYPE_SHIFT DPSW_ENTRY_TYPE_SIZE cfg.type },
    ret := err, out := () }

/-- `dpsw_fdb_add_multicast` (`dpsw.c` lines 1134-1158). -/
def dpsw_fdb_add_multicast (cmd_flags token fdb_id : Nat) (cfg : dpsw_fdb_multicast_cfg)
    (err : Int) : DpswCall dpsw_cmd_fdb_multicast_op Unit :=
  { hdr := mc_encode_cmd_header DpswCmdId.FDB_ADD_MULTICAST cmd_flags token,
    params := { fdb_id := cpu_to_le16 fdb_id,
                num_ifs := cpu_to_le16 cfg.num_ifs,
                type := dpsw_set_field 8 0 DPSW_ENTRY_TYPE_SHIFT DPSW_ENTRY_TYPE_SIZE cfg.type,
                if_id := build_if_id_bitmap (fun _ => 0) cfg.if_id cfg.num_ifs,
                mac_addr := fun i => cfg.mac_addr ⟨5 - i.val, by omega⟩ },
    ret := err, out := () }

/-- `dpsw_fdb_remove_multicast` (`dpsw.c` lines 1176-1200). -/
def dpsw_fdb_remove_multicast (cmd_flags token fdb_id : Nat) (cfg : dpsw_fdb_multicast_cfg)
    (err : Int) : DpswCall dpsw_cmd_fdb_multicast_op Unit :=
  { hdr := mc_encode_cmd_header DpswCmdId.FDB_REMOVE_MULTICAST cmd_flags token,
    params := { fdb_id := cpu_to_le16 fdb_id,
                num_ifs := cpu_to_le16 cfg.num_ifs,
                type := dpsw_set_field 8 0 DPSW_ENTRY_TYPE_SHIFT DPSW_ENTRY_TYPE_SIZE cfg.type,
                if_id := build_if_id_bitmap (fun _ => 0) cfg.if_id cfg.num_ifs,
                mac_addr := fun i => cfg.mac_addr ⟨5 - i.val, by omega⟩ },
    ret := err, out := () }

/-- `dpsw_fdb_set_learning_mode` (`dpsw.c` lines 1212-1231). -/
def dpsw_fdb_set_learning_mode (cmd_flags token fdb_id mode : Nat) (err : Int) :
    DpswCall dpsw_cmd_fdb_set_learning_mode Unit :=
  { hdr := mc_encode_cmd_header DpswCmdId.FDB_SET_LEARNING_MODE cmd_flags token,
    params := { fdb_id := cpu_to_le16 fdb_id,
                mode := dpsw_set_field 8 0 DPSW_LEARNING_MODE_SHIFT DPSW_LEARNING_MODE_SIZE mode },
    ret := err, out := () }

/-- `dpsw_get_api_version` (`dpsw.c` lines 1242-1264).  Encodes token 0;
outputs are the (major, minor) pair. -/
def dpsw_get_api_version (cmd_flags major_in minor_in : Nat) (err : Int)
    (rsp : dpsw_rsp_get_api_version) : DpswCall Unit (Nat × Nat) :=
  { hdr := mc_encode_cmd_header DpswCmdId.GET_API_VERSION cmd_flags 0,
    params := (),
    ret := if err ≠ 0 then err else 0,
    out := if err ≠ 0 then (major_in, minor_in)
           else (le16_to_cpu rsp.version_major, le16_to_cpu rsp.version_minor) }

/-- `dpsw_if_get_port_mac_addr` (`dpsw.c` lines 1276-1302); on success the
response MAC is stored reversed: `mac_addr[5 - i] = rsp_params->mac_addr[i]`. -/
def dpsw_if_get_port_mac_addr (cmd_flags token if_id : Nat) (mac_in : Fin 6 → Nat)
    (err : Int) (rsp : dpsw_rsp_if_get_mac_addr) : DpswCall dpsw_cmd_if (Fin 6 → Nat) :=
  { hdr := mc_encode_cmd_header DpswCmdId.IF_GET_PORT_MAC_ADDR cmd_flags token,
    params := { if_id := cpu_to_le16 if_id },
    ret := if err ≠ 0 then err else 0,
    out := if err ≠ 0 then mac_in else fun j => rsp.mac_addr ⟨5 - j.val, by omega⟩ }

/-- `dpsw_if_get_primary_mac_addr` (`dpsw.c` lines 1314-1340).  Note: the
source encodes `DPSW_CMDID_IF_SET_PRIMARY_MAC_ADDR` (line 1323), the same
command identifier as the set operation. -/
def dpsw_if_get_primary_mac_addr (cmd_flags token if_id : Nat) (mac_in : Fin 6 → Nat)
    (err : Int) (rsp : dpsw_rsp_if_get_mac_addr) : DpswCall dpsw_cmd_if (Fin 6 → Nat) :=
  { hdr := mc_encode_cmd_header DpswCmdId.IF_SET_PRIMARY_MAC_ADDR cmd_flags token,
    params := { if_id := cpu_to_le16 if_id },
    ret := if err ≠ 0 then err else 0,
    out := if err ≠ 0 then mac_in else fun j => rsp.mac_addr ⟨5 - j.val, by omega⟩ }

/-- `dpsw_if_set_primary_mac_addr` (`dpsw.c` lines 1352-1370). -/
def dpsw_if_set_primary_mac_addr (cmd_flags token if_id : Nat) (mac_addr : Fin 6 → Nat)
    (err : Int) : DpswCall dpsw_cmd_if_set_mac_addr Unit :=
  { hdr := mc_encode_cmd_header DpswCmdId.IF_SET_PRIMARY_MAC_ADDR cmd_flags token,
    params := { if_id := cpu_to_le16 if_id,
                mac_addr := fun i => mac_addr ⟨5 - i.val, by omega⟩ },
    ret := err, out := () }

/-- `dpsw_acl_add` (`dpsw.c` lines 1385-1413). -/
def dpsw_acl_add (cmd_flags token acl_id_in : Nat) (cfg : dpsw_acl_cfg) (err : Int)
    (rsp : dpsw_rsp_acl_add) : DpswCall dpsw_cmd_acl_add Nat :=
  { hdr := mc_encode_cmd_header DpswCmdId.ACL_ADD cmd_flags token,
    params := { max_entries := cpu_to_le16 cfg.max_entries },
    ret := if err ≠ 0 then err else 0,
    out := if err ≠ 0 then acl_id_in else le16_to_cpu rsp.acl_id }

/-- `dpsw_acl_remove` (`dpsw.c` lines 1424-1441). -/
def dpsw_acl_remove (cmd_flags token acl_id : Nat) (err : Int) :
    DpswCall dpsw_cmd_acl_remove Unit :=
  { hdr := mc_encode_cmd_header DpswCmdId.ACL_REMOVE cmd_flags token,
    params := { acl_id := cpu_to_le16 acl_id },
    ret := err, out := () }

/-- `dpsw_acl_add_if` (`dpsw.c` lines 1453-1473). -/
def dpsw_acl_add_if (cmd_flags token acl_id : Nat) (cfg : dpsw_acl_if_cfg) (err : Int) :
    DpswCall dpsw_cmd_acl_if Unit :=
  { hdr := mc_encode_cmd_header DpswCmdId.ACL_ADD_IF cmd_flags token,
    params := { acl_id := cpu_to_le16 acl_id,
                num_ifs := cpu_to_le16 cfg.num_ifs,
                if_id := build_if_id_bitmap (fun _ => 0) cfg.if_id cfg.num_ifs },
    ret := err, out := () }

/-- `dpsw_acl_remove_if` (`dpsw.c` lines 1485-1505). -/
def dpsw_acl_remove_if (cmd_flags token acl_id : Nat) (cfg : dpsw_acl_if_cfg) (err : Int) :
    DpswCall dpsw_cmd_acl_if Unit :=
  { hdr := mc_encode_cmd_header DpswCmdId.ACL_REMOVE_IF cmd_flags token,
    params := { acl_id := cpu_to_le16 acl_id,
                num_ifs := cpu_to_le16 cfg.num_ifs,
                if_id := build_if_id_bitmap (fun _ => 0) cfg.if_id cfg.num_ifs },
    ret := err, out := () }

/-- `dpsw_acl_prepare_entry_cfg` (`dpsw.c` lines 1515-1553): flattens the
match/mask key into the `dpsw_prep_acl_entry` record, reversing each MAC and
converting multi-byte scalars to little-endian. -/
def dpsw_acl_prepare_entry_cfg (key : dpsw_acl_key) : dpsw_prep_acl_entry :=
  { match_l2_dest_mac := fun i => key.match_f.l2_dest_mac ⟨5 - i.val, by omega⟩,
    match_l2_source_mac := fun i => key.match_f.l2_source_mac ⟨5 - i.val, by omega⟩,
    mask_l2_dest_mac := fun i => key.mask.l2_dest_mac ⟨5 - i.val, by omega⟩,
    mask_l2_source_mac := fun i => key.mask.l2_source_mac ⟨5 - i.val, by omega⟩,
    match_l2_tpid := cpu_to_le16 key.match_f.l2_tpid,
    match_l2_vlan_id := cpu_to_le16 key.match_f.l2_vlan_id,
    match_l3_dest_ip := cpu_to_le32 key.match_f.l3_dest_ip,
    match_l3_source_ip := cpu_to_le32 key.match_f.l3_source_ip,
    match_l4_dest_port := cpu_to_le16 key.match_f.l4_dest_port,
    match_l4_source_port := cpu_to_le16 key.match_f.l4_source_port,
    match_l2_ether_type := cpu_to_le16 key.match_f.l2_ether_type,
    match_l2_pcp_dei := key.match_f.l2_pcp_dei,
    match_l3_dscp := key.match_f.l3_dscp,
    mask_l2_tpid := cpu_to_le16 key.mask.l2_tpid,
    mask_l2_vlan_id := cpu_to_le16 key.mask.l2_vlan_id,
    mask_l3_dest_ip := cpu_to_le32 key.mask.l3_dest_ip,
    mask_l3_source_ip := cpu_to_le32 key.mask.l3_source_ip,
    mask_l4_dest_port := cpu_to_le16 key.mask.l4_dest_port,
    mask_l4_source_port := cpu_to_le16 key.mask.l4_source_port,
    mask_l2_ether_type := cpu_to_le16 key.mask.l2_ether_type,
    mask_l2_pcp_dei := key.mask.l2_pcp_dei,
    mask_l3_dscp := key.mask.l3_dscp,
    match_l3_protocol := key.match_f.l3_protocol,
    mask_l3_protocol := key.mask.l3_protocol,
    match_frame_flags := key.match_f.frame_flags,
    mask_frame_flags := key.mask.frame_flags }

/-- `dpsw_acl_add_entry` (`dpsw.c` lines 1567-1591). -/
def dpsw_acl_add_entry (cmd_flags token acl_id : Nat) (cfg : dpsw_acl_entry_cfg) (err : Int) :
    DpswCall dpsw_cmd_acl_entry Unit :=
  { hdr := mc_encode_cmd_header DpswCmdId.ACL_ADD_ENTRY cmd_flags token,
    params := { acl_id := cpu_to_le16 acl_id,
                result_if_id := cpu_to_le16 cfg.result.if_id,
                precedence := cpu_to_le32 cfg.precedence,
                key_iova := cpu_to_le64 cfg.key_iova,
                result_action :=
                  dpsw_set_field 8 0 DPSW_RESULT_ACTION_SHIFT DPSW_RESULT_ACTION_SIZE
                    cfg.result.action },
    ret := err, out := () }

/-! ## ACL key byte layout (modelled from the spec) -/

/-- The six bytes of a MAC-address field, in index order. -/
def mac_bytes (m : Fin 6 → Nat) : List Nat := [m 0, m 1, m 2, m 3, m 4, m 5]

/-- Little-endian byte pair of a 16-bit value. -/
def le16_bytes (v : Nat) : List Nat := [v % 2 ^ 8, v / 2 ^ 8 % 2 ^ 8]

/-- Little-endian byte quadruple of a 32-bit value. -/
def le32_bytes (v : Nat) : List Nat :=
  [v % 2 ^ 8, v / 2 ^ 8 % 2 ^ 8, v / 2 ^ 16 % 2 ^ 8, v / 2 ^ 24 % 2 ^ 8]

/-- Modelled from the spec (§4.5): the fixed 256-byte layout of the flattened
ACL key, whose byte offsets live in the absent `dpsw-cmd.h`.  Field order
follows §4.5 — destination MAC, source MAC, masks for both, then TPID,
VLAN ID, dest IP, source IP, dest port, source port, ethertype (little-endian
where multi-byte), followed by the PCP/DEI, DSCP, protocol and frame-flags
bytes, match block paired with mask block per field — padded with zero to the
fixed 256-byte size. -/
def dpsw_prep_acl_entry_bytes (p : dpsw_prep_acl_entry) : List Nat :=
  mac_bytes p.match_l2_dest_mac ++ mac_bytes p.match_l2_source_mac ++
  mac_bytes p.mask_l2_dest_mac ++ mac_bytes p.mask_l2_source_mac ++
  le16_bytes p.match_l2_tpid ++ le16_bytes p.mask_l2_tpid ++
  le16_bytes p.match_l2_vlan_id ++ le16_bytes p.mask_l2_vlan_id ++
  le32_bytes p.match_l3_dest_ip ++ le32_bytes p.mask_l3_dest_ip ++
  le32_bytes p.match_l3_source_ip ++ le32_bytes p.mask_l3_source_ip ++
  le16_bytes p.match_l4_dest_port ++ le16_bytes p.mask_l4_dest_port ++
  le16_bytes p.match_l4_source_port ++ le16_bytes p.mask_l4_source_port ++
  le16_bytes p.match_l2_ether_type ++ le16_bytes p.mask_l2_ether_type ++
  [p.match_l2_pcp_dei, p.mask_l2_pcp_dei] ++
  [p.match_l3_dscp, p.mask_l3_dscp] ++
  [p.match_l3_protocol, p.mask_l3_protocol] ++
  [p.match_frame_flags, p.mask_frame_flags] ++
  List.replicate 188 0

/-- The all-zero ACL field set: the state of a `struct dpsw_acl_fields` the
caller has zero-initialized. -/
def dpsw_acl_fields_zero : dpsw_acl_fields :=
  { l2_dest_mac := fun _ => 0,
    l2_source_mac := fun _ => 0,
    l2_tpid := 0,
    l2_pcp_dei := 0,
    l2_vlan_id := 0,
    l2_ether_type := 0,
    l3_dscp := 0,
    l3_protocol := 0,
    l3_source_ip := 0,
    l3_dest_ip := 0,
    l4_source_port := 0,
    l4_dest_port := 0,
    frame_flags := 0 }

/-! ## Bitmap builder: bit-level characterization -/

/-- One `build_step` sets exactly bit `a % 64` of word `a / 64` when
`a < DPSW_MAX_IF`, and otherwise changes nothing. -/
theorem build_step_testBit (bmap : Nat → Nat) (a w b : Nat) :
    (build_step bmap a w).testBit b = true ↔
      (bmap w).testBit b = true ∨ (a < DPSW_MAX_IF ∧ w = a / 64 ∧ b = a % 64) := by
  unfold build_step
  by_cases ha : a < DPSW_MAX_IF
  · rw [if_pos ha]
    have hmask : cpu_to_le64 (BIT_MASK (a % 64)) = 2 ^ (a % 64) := by
      unfold cpu_to_le64 BIT_MASK
      have h1 : a % 64 % 64 = a % 64 := by omega
      rw [h1, Nat.shiftLeft_eq, one_mul]
      exact Nat.mod_eq_of_lt (Nat.pow_lt_pow_right one_lt_two (by omega))
    by_cases hw : w = a / 64
    · subst hw
      rw [if_pos rfl, hmask, Nat.testBit_or]
      rcases eq_or_ne b (a % 64) with hb | hb
      · subst hb
        simp [Nat.testBit_two_pow_self, ha]
      · rw [Nat.testBit_two_pow_of_ne (Ne.symm hb)]
        simp [ha, hb]
    · rw [if_neg hw]
      simp [hw]
  · rw [if_neg ha]
    simp [ha]

/-- Bits of a `build_step` fold: a bit is set in the result iff it was set in
the initial bitmap or some processed id below `DPSW_MAX_IF` addresses it. -/
theorem foldl_build_step_testBit (l : List Nat) (bmap : Nat → Nat) (w b : Nat) :
    ((l.foldl build_step bmap) w).testBit b = true ↔
      (bmap w).testBit b = true ∨
        ∃ i ∈ l, i < DPSW_MAX_IF ∧ w = i / 64 ∧ b = i % 64 := by
  induction l generalizing bmap with
  | nil => simp
  | cons a l ih =>
    rw [List.foldl_cons, ih (build_step bmap a)]
    rw [build_step_testBit]
    constructor
    · rintro ((h | hA) | ⟨i, hi, hP⟩)
      · exact Or.inl h
      · exact Or.inr ⟨a, List.mem_cons_self a l, hA⟩
      · exact Or.inr ⟨i, List.mem_cons_of_mem a hi, hP⟩
    · rintro (h | ⟨i, hi, hP⟩)
      · exact Or.inl (Or.inl h)
      · rcases List.mem_cons.mp hi with rfl | him
        · exact Or.inl (Or.inr hP)
        · exact Or.inr ⟨i, him, hP⟩

/-- Ids at or above `DPSW_MAX_IF` contribute nothing to a `build_step` fold:
filtering them out of the processed list leaves the result unchanged. -/
theorem foldl_build_step_filter (l : List Nat) (bmap : Nat → Nat) :
    l.foldl build_step bmap =
      (l.filter fun i => decide (i < DPSW_MAX_IF)).foldl build_step bmap := by
  induction l generalizing bmap with
  | nil => rfl
  | cons a l ih =>
    by_cases ha : a < DPSW_MAX_IF
    · rw [List.foldl_cons, List.filter_cons, if_pos (by simpa using ha), List.foldl_cons]
      exact ih (build_step bmap a)
    · have hstep : build_step bmap a = bmap := by
        unfold build_step
        rw [if_neg ha]
      rw [List.foldl_cons, hstep, List.filter_cons, if_neg (by simpa using ha)]
      exact ih bmap

/-- A `build_step` fold depends only on the set of processed ids: lists with
the same members (duplicates and order ignored) produce equal bitmaps. -/
theorem foldl_build_step_mem_congr (l1 l2 : List Nat) (bmap : Nat → Nat)
    (h : ∀ a, a ∈ l1 ↔ a ∈ l2) :
    l1.foldl build_step bmap = l2.foldl build_step bmap := by
  funext w
  apply Nat.eq_of_testBit_eq
  intro b
  have h1 := foldl_build_step_testBit l1 bmap w b
  have h2 := foldl_build_step_testBit l2 bmap w b
  have hiff : ((l1.foldl build_step bmap) w).testBit b = true ↔
      ((l2.foldl build_step bmap) w).testBit b = true := by
    rw [h1, h2]
    constructor
    · rintro (hb | ⟨i, hi, hP⟩)
      · exact Or.inl hb
      · exact Or.inr ⟨i, (h i).mp hi, hP⟩
    · rintro (hb | ⟨i, hi, hP⟩)
      · exact Or.inl hb
      · exact Or.inr ⟨i, (h i).mpr hi, hP⟩
  cases hb1 : ((l1.foldl build_step bmap) w).testBit b <;>
    cases hb2 : ((l2.foldl build_step bmap) w).testBit b <;> simp_all

/-! ## Bit-field codec: write/read properties -/

/-- The field mask has exactly the bits `[shift, shift + size)` set. -/
theorem DPSW_MASK_testBit (shift size i : Nat) :
    (DPSW_MASK shift size).testBit i = (decide (shift ≤ i) && decide (i - shift < size)) := by
  unfold DPSW_MASK
  rw [Nat.testBit_shiftLeft]
  have h1 : (1 : Nat) <<< size = 2 ^ size := by rw [Nat.shiftLeft_eq, one_mul]
  rw [h1, Nat.testBit_two_pow_sub_one]

/-- Writing a bit field leaves every bit outside `[shift, shift + size)`
of the width-bit slot unchanged. -/
theorem dpsw_set_field_outside (width slot shift size v i : Nat)
    (hslot : slot < 2 ^ width) (hi : i < shift ∨ shift + size ≤ i) :
    (dpsw_set_field width slot shift size v).testBit i = slot.testBit i := by
  unfold dpsw_set_field
  by_cases hw : i < width
  · rw [Nat.testBit_mod_two_pow]
    have hm : (DPSW_MASK shift size).testBit i = false := by
      rw [DPSW_MASK_testBit]
      rcases hi with h | h
      · simp [Nat.not_le.mpr h]
      · have : ¬(i - shift < size) := by omega
        simp [this]
    rw [Nat.testBit_or, Nat.testBit_xor, Nat.testBit_and, Nat.testBit_and, hm]
    simp [hw]
  · have hhi : slot.testBit i = false := by
      apply Nat.testBit_lt_two_pow
      calc slot < 2 ^ width := hslot
        _ ≤ 2 ^ i := Nat.pow_le_pow_right (by omega) (by omega)
    have hlt : (slot ^^^ (slot &&& DPSW_MASK shift size)) |||
        ((v <<< shift) &&& DPSW_MASK shift size) ≥ 0 := Nat.zero_le _
    rw [hhi]
    apply Nat.testBit_lt_two_pow
    calc _ % 2 ^ width < 2 ^ width := Nat.mod_lt _ (Nat.pos_pow_of_pos width (by omega))
      _ ≤ 2 ^ i := Nat.pow_le_pow_right (by omega) (by omega)

/-- Reading a bit field masks exactly its declared width: the result is below
`2 ^ size`. -/
theorem dpsw_get_field_lt (slot shift size : Nat) :
    dpsw_get_field slot shift size < 2 ^ size := by
  unfold dpsw_get_field
  have h1 : slot &&& DPSW_MASK shift size ≤ DPSW_MASK shift size := Nat.and_le_right
  have h2 : DPSW_MASK shift size >>> shift = 2 ^ size - 1 := by
    unfold DPSW_MASK
    rw [Nat.shiftLeft_eq, Nat.shiftLeft_eq, one_mul, Nat.shiftRight_eq_div_pow]
    exact Nat.mul_div_cancel _ (Nat.pos_pow_of_pos shift (by omega))
  calc (slot &&& DPSW_MASK shift size) >>> shift
      ≤ DPSW_MASK shift size >>> shift := by
        rw [Nat.shiftRight_eq_div_pow, Nat.shiftRight_eq_div_pow]
        exact Nat.div_le_div_right h1
    _ = 2 ^ size - 1 := h2
    _ < 2 ^ size := by
        have : 0 < 2 ^ size := Nat.pos_pow_of_pos size (by omega)
        omega

/-! ## MAC codec: round trip -/

/-- Decoding an encoded MAC address restores the original bytes. -/
theorem mac_from_wire_to_wire (m : Fin 6 → Nat) : mac_from_wire (mac_to_wire m) = m := by
  funext i
  unfold mac_from_wire mac_to_wire
  have hi := i.isLt
  apply congrArg m
  apply Fin.ext
  simp only [Fin.val_mk]
  omega

/-- Encoding a decoded MAC address restores the wire bytes. -/
theorem mac_to_wire_from_wire (m : Fin 6 → Nat) : mac_to_wire (mac_from_wire m) = m := by
  funext i
  unfold mac_from_wire mac_to_wire
  have hi := i.isLt
  apply congrArg m
  apply Fin.ext
  simp only [Fin.val_mk]
  omega

/-! ## Claim theorems -/

/-- Claim C2: `build_if_id_bitmap` processes exactly the first
`min count DPSW_MAX_IF` entries of the id sequence, and a bit of word `w` is
set in the result iff it was already set in the initial bitmap (bits are
never cleared) or some processed id `i < DPSW_MAX_IF` addresses it, i.e.
`w = i / 64` and the bit is `i % 64` (no other bit is ever set). -/
theorem claim_C2_bitmap_bits (bmap : Nat → Nat) (ids : List Nat) (num_ifs w b : Nat) :
    (build_if_id_bitmap bmap ids num_ifs w).testBit b = true ↔
      (bmap w).testBit b = true ∨
        ∃ i ∈ List.take (min num_ifs DPSW_MAX_IF) ids,
          i < DPSW_MAX_IF ∧ w = i / 64 ∧ b = i % 64 := by
  unfold build_if_id_bitmap
  exact foldl_build_step_testBit _ _ _ _

/-- Claim C5: an interface index equal to `DPSW_MAX_IF` (64) with count 1
leaves the bitmap all-zero, and in general every id at or above
`DPSW_MAX_IF` is silently dropped from the processed sequence: the builder
result equals the fold over the processed leading entries with out-of-range ids
filtered out (the builder has no error channel to report them on). -/
theorem claim_C5_truncation :
    build_if_id_bitmap (fun _ => 0) [64] 1 = (fun _ => 0) ∧
    ∀ (bmap : Nat → Nat) (ids : List Nat) (num_ifs : Nat),
      build_if_id_bitmap bmap ids num_ifs =
        ((List.take (min num_ifs DPSW_MAX_IF) ids).filter
          fun i => decide (i < DPSW_MAX_IF)).foldl build_step bmap := by
  constructor
  · rfl
  · intro bmap ids num_ifs
    unfold build_if_id_bitmap
    exact foldl_build_step_filter _ _

/-- Claim C8: building from `[5, 70, 5]` with count 3 sets exactly bit 5 of
word 0 (the out-of-range 70 is dropped and the duplicate 5 is absorbed by
the idempotent OR), and in general the bitmap depends only on the set of
processed ids: processed prefixes with the same members give equal bitmaps,
so a duplicated index yields the same bitmap as the index appearing once. -/
theorem claim_C8_bitmap_set_semantics :
    build_if_id_bitmap (fun _ => 0) [5, 70, 5] 3 = (fun w => if w = 0 then 32 else 0) ∧
    ∀ (bmap : Nat → Nat) (ids1 ids2 : List Nat) (n1 n2 : Nat),
      (∀ a, a ∈ List.take (min n1 DPSW_MAX_IF) ids1 ↔
            a ∈ List.take (min n2 DPSW_MAX_IF) ids2) →
      build_if_id_bitmap bmap ids1 n1 = build_if_id_bitmap bmap ids2 n2 := by
  constructor
  · funext w
    by_cases hw : w = 0
    · subst hw
      rfl
    · simp [build_if_id_bitmap, build_step, DPSW_MAX_IF, hw]
  · intro bmap ids1 ids2 n1 n2 h
    unfold build_if_id_bitmap
    exact foldl_build_step_mem_congr _ _ _ h

/-- Witness for C8: the concrete duplicate `[5, 70, 5]` (count 3) and the
deduplicated `[5, 70]` (count 2) have the same processed members and produce
the same bitmap. -/
theorem claim_C8_witness :
    (∀ a : Nat, a ∈ List.take (min 3 DPSW_MAX_IF) [5, 70, 5] ↔
                a ∈ List.take (min 2 DPSW_MAX_IF) [5, 70]) ∧
    build_if_id_bitmap (fun _ => 0) [5, 70, 5] 3 = build_if_id_bitmap (fun _ => 0) [5, 70] 2 := by
  have hmem : ∀ a : Nat, a ∈ List.take (min 3 DPSW_MAX_IF) [5, 70, 5] ↔
      a ∈ List.take (min 2 DPSW_MAX_IF) [5, 70] := by
    intro a
    norm_num [DPSW_MAX_IF]
    tauto
  exact ⟨hmem, claim_C8_bitmap_set_semantics.2 (fun _ => 0) [5, 70, 5] [5, 70] 3 2 hmem⟩

/-- Claim C3: every MAC-carrying command encodes the address reversed
(`wire[i] = host[5-i]`), the MAC-returning commands decode with the same
reversal, and decode after encode is the identity on 6-byte values (as is
encode after decode). -/
theorem claim_C3_mac_codec :
    (∀ (cf tk fdb : Nat) (cfg : dpsw_fdb_unicast_cfg) (err : Int),
      (dpsw_fdb_add_unicast cf tk fdb cfg err).params.mac_addr = mac_to_wire cfg.mac_addr) ∧
    (∀ (cf tk fdb : Nat) (cfg : dpsw_fdb_unicast_cfg) (err : Int),
      (dpsw_fdb_remove_unicast cf tk fdb cfg err).params.mac_addr = mac_to_wire cfg.mac_addr) ∧
    (∀ (cf tk fdb : Nat) (cfg : dpsw_fdb_multicast_cfg) (err : Int),
      (dpsw_fdb_add_multicast cf tk fdb cfg err).params.mac_addr = mac_to_wire cfg.mac_addr) ∧
    (∀ (cf tk fdb : Nat) (cfg : dpsw_fdb_multicast_cfg) (err : Int),
      (dpsw_fdb_remove_multicast cf tk fdb cfg err).params.mac_addr = mac_to_wire cfg.mac_addr) ∧
    (∀ (cf tk if_id : Nat) (mac : Fin 6 → Nat) (err : Int),
      (dpsw_if_set_primary_mac_addr cf tk if_id mac err).params.mac_addr = mac_to_wire mac) ∧
    (∀ (cf tk if_id : Nat) (mac_in : Fin 6 → Nat) (rsp : dpsw_rsp_if_get_mac_addr),
      (dpsw_if_get_port_mac_addr cf tk if_id mac_in 0 rsp).out = mac_from_wire rsp.mac_addr) ∧
    (∀ (cf tk if_id : Nat) (mac_in : Fin 6 → Nat) (rsp : dpsw_rsp_if_get_mac_addr),
      (dpsw_if_get_primary_mac_addr cf tk if_id mac_in 0 rsp).out = mac_from_wire rsp.mac_addr) ∧
    (∀ x : Fin 6 → Nat, mac_from_wire (mac_to_wire x) = x) ∧
    (∀ x : Fin 6 → Nat, mac_to_wire (mac_from_wire x) = x) :=
  ⟨fun _ _ _ _ _ => rfl,
   fun _ _ _ _ _ => rfl,
   fun _ _ _ _ _ => rfl,
   fun _ _ _ _ _ => rfl,
   fun _ _ _ _ _ => rfl,
   fun _ _ _ _ _ => rfl,
   fun _ _ _ _ _ => rfl,
   mac_from_wire_to_wire,
   mac_to_wire_from_wire⟩

/-- Claim C6: packing PCP 7, DEI 1 and VLAN ID 0xABC into the zero-initialized
16-bit TCI slot (in the write order of `dpsw_if_set_tci`) yields exactly the
OR of the three fields shifted to their offsets; in general a bit-field write
leaves every bit outside its declared `[shift, shift + size)` range of the
slot unchanged, and a bit-field read masks exactly its declared width. -/
theorem claim_C6_tci_packing :
    (∀ (cf tk if_id : Nat) (err : Int),
      (dpsw_if_set_tci cf tk if_id { pcp := 7, dei := 1, vlan_id := 0xABC } err).params.conf =
        ((7 <<< DPSW_PCP_SHIFT) ||| (1 <<< DPSW_DEI_SHIFT) ||| (0xABC <<< DPSW_VLAN_ID_SHIFT))) ∧
    (∀ width slot shift size v i, slot < 2 ^ width → (i < shift ∨ shift + size ≤ i) →
      (dpsw_set_field width slot shift size v).testBit i = slot.testBit i) ∧
    (∀ slot shift size, dpsw_get_field slot shift size < 2 ^ size) :=
  ⟨fun _ _ _ _ => rfl, dpsw_set_field_outside, dpsw_get_field_lt⟩

/-- Witness for C6: the slot 0xABC is a 16-bit value and bit 0 lies outside
the DEI field `[12, 13)`; writing DEI there leaves bit 0 unchanged. -/
theorem claim_C6_witness :
    (0xABC : Nat) < 2 ^ 16 ∧ ((0 : Nat) < 12 ∨ 12 + 1 ≤ (0 : Nat)) ∧
    (dpsw_set_field 16 0xABC 12 1 1).testBit 0 = (0xABC : Nat).testBit 0 :=
  ⟨by norm_num, Or.inl (by norm_num),
   claim_C6_tci_packing.2.1 16 0xABC 12 1 1 0 (by norm_num) (Or.inl (by norm_num))⟩

/-- Claim C1 (refuting evidence): `dpsw_if_get_primary_mac_addr` encodes the
command identifier `DPSW_CMDID_IF_SET_PRIMARY_MAC_ADDR` (`dpsw.c` line 1323),
so the get-primary and set-primary operations place the same command id on
the wire instead of distinct, operation-specific ones. -/
theorem claim_C1_primary_mac_cmd_id_collision :
    (dpsw_if_get_primary_mac_addr 0 0 0 (fun _ => 0) 0 ⟨fun _ => 0⟩).hdr.cmd_id =
      DpswCmdId.IF_SET_PRIMARY_MAC_ADDR ∧
    (dpsw_if_get_primary_mac_addr 0 0 0 (fun _ => 0) 0 ⟨fun _ => 0⟩).hdr.cmd_id =
      (dpsw_if_set_primary_mac_addr 0 0 0 (fun _ => 0) 0).hdr.cmd_id :=
  ⟨rfl, rfl⟩

/-- Claim C9: the request payload of `dpsw_get_irq_status` carries the
incoming `*status` value (little-endian, i.e. its low 32 bits), so two calls
identical in every input except the initial `*status` submit different
command payloads to the transport. -/
theorem claim_C9_request_depends_on_status :
    (∀ (cf tk irq s : Nat) (err : Int) (rsp : dpsw_rsp_get_irq_status),
      (dpsw_get_irq_status cf tk irq s err rsp).params.status = s % 2 ^ 32) ∧
    (∀ (cf tk irq s1 s2 : Nat) (err1 err2 : Int) (r1 r2 : dpsw_rsp_get_irq_status),
      s1 < 2 ^ 32 → s2 < 2 ^ 32 → s1 ≠ s2 →
      (dpsw_get_irq_status cf tk irq s1 err1 r1).params ≠
        (dpsw_get_irq_status cf tk irq s2 err2 r2).params) := by
  constructor
  · intro cf tk irq s err rsp
    rfl
  · intro cf tk irq s1 s2 err1 err2 r1 r2 h1 h2 hne heq
    apply hne
    have hst := congrArg dpsw_cmd_get_irq_status.status heq
    simp [dpsw_get_irq_status, cpu_to_le32] at hst
    omega

/-- Witness for C9: initial status values 0 and 1 are in 32-bit range and
distinct, and the two submitted payloads differ. -/
theorem claim_C9_witness :
    (0 : Nat) < 2 ^ 32 ∧ (1 : Nat) < 2 ^ 32 ∧ (0 : Nat) ≠ 1 ∧
    (dpsw_get_irq_status 0 0 0 0 0 ⟨0⟩).params ≠ (dpsw_get_irq_status 0 0 0 1 0 ⟨0⟩).params :=
  ⟨by norm_num, by norm_num, by norm_num,
   claim_C9_request_depends_on_status.2 0 0 0 0 1 0 0 ⟨0⟩ ⟨0⟩
     (by norm_num) (by norm_num) (by norm_num)⟩

set_option maxRecDepth 16000 in
/-- Claim C7: flattening an ACL key whose only nonzero fields are the
destination-MAC match and mask fills exactly the destination-MAC match
region (bytes 0-5) and mask region (bytes 12-17) with the byte-reversed
inputs and leaves every other byte of the fixed-size buffer zero; the
buffer is exactly 256 bytes for every key. -/
theorem claim_C7_acl_flatten (dmac dmask : Fin 6 → Nat) :
    dpsw_prep_acl_entry_bytes
        (dpsw_acl_prepare_entry_cfg
          { match_f := { dpsw_acl_fields_zero with l2_dest_mac := dmac },
            mask := { dpsw_acl_fields_zero with l2_dest_mac := dmask } }) =
      [dmac 5, dmac 4, dmac 3, dmac 2, dmac 1, dmac 0] ++
        List.replicate 6 0 ++
        [dmask 5, dmask 4, dmask 3, dmask 2, dmask 1, dmask 0] ++
        List.replicate 238 0 ∧
    ∀ p : dpsw_prep_acl_entry, (dpsw_prep_acl_entry_bytes p).length = 256 := by
  constructor
  · simp [dpsw_prep_acl_entry_bytes, dpsw_acl_prepare_entry_cfg, dpsw_acl_fields_zero,
          mac_bytes, le16_bytes, le32_bytes, cpu_to_le16, cpu_to_le32,
          List.replicate, show ((0 : Fin 6).val) = 0 from rfl]
    exact ⟨rfl, rfl, rfl, rfl, rfl, rfl⟩
  · intro p
    simp [dpsw_prep_acl_entry_bytes, mac_bytes, le16_bytes, le32_bytes]

/-- Claim C4: for every output-producing operation, a nonzero transport
status is returned verbatim with all caller-visible outputs left at their
incoming values, and a zero transport status yields return value 0 with
every output field populated from the decoded response. -/
theorem claim_C4_status_and_outputs :
    (∀ (cf id tin : Nat) (err : Int) (rt : Nat), err ≠ 0 →
      (dpsw_open cf id tin err rt).ret = err ∧ (dpsw_open cf id tin err rt).out = tin) ∧
    (∀ (cf id tin rt : Nat),
      (dpsw_open cf id tin 0 rt).ret = 0 ∧
      (dpsw_open cf id tin 0 rt).out = mc_cmd_hdr_read_token rt) ∧
    (∀ (cf tk irq s : Nat) (err : Int) (rsp : dpsw_rsp_get_irq_status), err ≠ 0 →
      (dpsw_get_irq_status cf tk irq s err rsp).ret = err ∧
      (dpsw_get_irq_status cf tk irq s err rsp).out = s) ∧
    (∀ (cf tk irq s : Nat) (rsp : dpsw_rsp_get_irq_status),
      (dpsw_get_irq_status cf tk irq s 0 rsp).ret = 0 ∧
      (dpsw_get_irq_status cf tk irq s 0 rsp).out = le32_to_cpu rsp.status) ∧
    (∀ (cf tk : Nat) (a : dpsw_attr) (err : Int) (rsp : dpsw_rsp_get_attr), err ≠ 0 →
      (dpsw_get_attributes cf tk a err rsp).ret = err ∧
      (dpsw_get_attributes cf tk a err rsp).out = a) ∧
    (∀ (cf tk : Nat) (a : dpsw_attr) (rsp : dpsw_rsp_get_attr),
      (dpsw_get_attributes cf tk a 0 rsp).ret = 0 ∧
      (dpsw_get_attributes cf tk a 0 rsp).out =
        { num_ifs := le16_to_cpu rsp.num_ifs,
          max_fdbs := rsp.max_fdbs,
          num_fdbs := rsp.num_fdbs,
          max_vlans := le16_to_cpu rsp.max_vlans,
          num_vlans := le16_to_cpu rsp.num_vlans,
          max_fdb_entries := le16_to_cpu rsp.max_fdb_entries,
          fdb_aging_time := le16_to_cpu rsp.fdb_aging_time,
          id := le32_to_cpu rsp.dpsw_id,
          mem_size := le16_to_cpu rsp.mem_size,
          max_fdb_mc_groups := le16_to_cpu rsp.max_fdb_mc_groups,
          max_meters_per_if := rsp.max_meters_per_if,
          options := le64_to_cpu rsp.options,
          component_type := dpsw_get_field rsp.component_type
            DPSW_COMPONENT_TYPE_SHIFT DPSW_COMPONENT_TYPE_SIZE }) ∧
    (∀ (cf tk ifid : Nat) (a : dpsw_if_attr) (err : Int) (rsp : dpsw_rsp_if_get_attr),
      err ≠ 0 →
      (dpsw_if_get_attributes cf tk ifid a err rsp).ret = err ∧
      (dpsw_if_get_attributes cf tk ifid a err rsp).out = a) ∧
    (∀ (cf tk ifid : Nat) (a : dpsw_if_attr) (rsp : dpsw_rsp_if_get_attr),
      (dpsw_if_get_attributes cf tk ifid a 0 rsp).ret = 0 ∧
      (dpsw_if_get_attributes cf tk ifid a 0 rsp).out =
        { num_tcs := rsp.num_tcs,
          rate := le32_to_cpu rsp.rate,
          options := le32_to_cpu rsp.options,
          qdid := le16_to_cpu rsp.qdid,
          enabled := dpsw_get_field rsp.conf DPSW_ENABLE_SHIFT DPSW_ENABLE_SIZE,
          accept_all_vlan :=
            dpsw_get_field rsp.conf DPSW_ACCEPT_ALL_VLAN_SHIFT DPSW_ACCEPT_ALL_VLAN_SIZE,
          admit_untagged :=
            dpsw_get_field rsp.conf DPSW_ADMIT_UNTAGGED_SHIFT DPSW_ADMIT_UNTAGGED_SIZE }) ∧
    (∀ (cf tk ifid : Nat) (st : dpsw_link_state) (err : Int)
        (rsp : dpsw_rsp_if_get_link_state), err ≠ 0 →
      (dpsw_if_get_link_state cf tk ifid st err rsp).ret = err ∧
      (dpsw_if_get_link_state cf tk ifid st err rsp).out = st) ∧
    (∀ (cf tk ifid : Nat) (st : dpsw_link_state) (rsp : dpsw_rsp_if_get_link_state),
      (dpsw_if_get_link_state cf tk ifid st 0 rsp).ret = 0 ∧
      (dpsw_if_get_link_state cf tk ifid st 0 rsp).out =
        { rate := le32_to_cpu rsp.rate,
          options := le64_to_cpu rsp.options,
          up := dpsw_get_field rsp.up DPSW_UP_SHIFT DPSW_UP_SIZE }) ∧
    (∀ (cf tk ifid : Nat) (c : dpsw_tci_cfg) (err : Int) (rsp : dpsw_rsp_if_get_tci),
      err ≠ 0 →
      (dpsw_if_get_tci cf tk ifid c err rsp).ret = err ∧
      (dpsw_if_get_tci cf tk ifid c err rsp).out = c) ∧
    (∀ (cf tk ifid : Nat) (c : dpsw_tci_cfg) (rsp : dpsw_rsp_if_get_tci),
      (dpsw_if_get_tci cf tk ifid c 0 rsp).ret = 0 ∧
      (dpsw_if_get_tci cf tk ifid c 0 rsp).out =
        { pcp := rsp.pcp, dei := rsp.dei, vlan_id := le16_to_cpu rsp.vlan_id }) ∧
    (∀ (cf tk ifid ty cin : Nat) (err : Int) (rsp : dpsw_rsp_if_get_counter), err ≠ 0 →
      (dpsw_if_get_counter cf tk ifid ty cin err rsp).ret = err ∧
      (dpsw_if_get_counter cf tk ifid ty cin err rsp).out = cin) ∧
    (∀ (cf tk ifid ty cin : Nat) (rsp : dpsw_rsp_if_get_counter),
      (dpsw_if_get_counter cf tk ifid ty cin 0 rsp).ret = 0 ∧
      (dpsw_if_get_counter cf tk ifid ty cin 0 rsp).out = le64_to_cpu rsp.counter) ∧
    (∀ (cf tk fdb ia is nin : Nat) (err : Int) (rsp : dpsw_rsp_fdb_dump), err ≠ 0 →
      (dpsw_fdb_dump cf tk fdb ia is nin err rsp).ret = err ∧
      (dpsw_fdb_dump cf tk fdb ia is nin err rsp).out = nin) ∧
    (∀ (cf tk fdb ia is nin : Nat) (rsp : dpsw_rsp_fdb_dump),
      (dpsw_fdb_dump cf tk fdb ia is nin 0 rsp).ret = 0 ∧
      (dpsw_fdb_dump cf tk fdb ia is nin 0 rsp).out = le16_to_cpu rsp.num_entries) ∧
    (∀ (cf mj mn : Nat) (err : Int) (rsp : dpsw_rsp_get_api_version), err ≠ 0 →
      (dpsw_get_api_version cf mj mn err rsp).ret = err ∧
      (dpsw_get_api_version cf mj mn err rsp).out = (mj, mn)) ∧
    (∀ (cf mj mn : Nat) (rsp : dpsw_rsp_get_api_version),
      (dpsw_get_api_version cf mj mn 0 rsp).ret = 0 ∧
      (dpsw_get_api_version cf mj mn 0 rsp).out =
        (le16_to_cpu rsp.version_major, le16_to_cpu rsp.version_minor)) ∧
    (∀ (cf tk ifid : Nat) (m : Fin 6 → Nat) (err : Int) (rsp : dpsw_rsp_if_get_mac_addr),
      err ≠ 0 →
      (dpsw_if_get_port_mac_addr cf tk ifid m err rsp).ret = err ∧
      (dpsw_if_get_port_mac_addr cf tk ifid m err rsp).out = m) ∧
    (∀ (cf tk ifid : Nat) (m : Fin 6 → Nat) (rsp : dpsw_rsp_if_get_mac_addr),
      (dpsw_if_get_port_mac_addr cf tk ifid m 0 rsp).ret = 0 ∧
      (dpsw_if_get_port_mac_addr cf tk ifid m 0 rsp).out = mac_from_wire rsp.mac_addr) ∧
    (∀ (cf tk ifid : Nat) (m : Fin 6 → Nat) (err : Int) (rsp : dpsw_rsp_if_get_mac_addr),
      err ≠ 0 →
      (dpsw_if_get_primary_mac_addr cf tk ifid m err rsp).ret = err ∧
      (dpsw_if_get_primary_mac_addr cf tk ifid m err rsp).out = m) ∧
    (∀ (cf tk ifid : Nat) (m : Fin 6 → Nat) (rsp : dpsw_rsp_if_get_mac_addr),
      (dpsw_if_get_primary_mac_addr cf tk ifid m 0 rsp).ret = 0 ∧
      (dpsw_if_get_primary_mac_addr cf tk ifid m 0 rsp).out = mac_from_wire rsp.mac_addr) ∧
    (∀ (cf tk ain : Nat) (c : dpsw_acl_cfg) (err : Int) (rsp : dpsw_rsp_acl_add), err ≠ 0 →
      (dpsw_acl_add cf tk ain c err rsp).ret = err ∧
      (dpsw_acl_add cf tk ain c err rsp).out = ain) ∧
    (∀ (cf tk ain : Nat) (c : dpsw_acl_cfg) (rsp : dpsw_rsp_acl_add),
      (dpsw_acl_add cf tk ain c 0 rsp).ret = 0 ∧
      (dpsw_acl_add cf tk ain c 0 rsp).out = le16_to_cpu rsp.acl_id) := by
  refine ⟨?_, ?_, ?_, ?_, ?_, ?_, ?_, ?_, ?_, ?_, ?_, ?_, ?_, ?_, ?_, ?_, ?_, ?_,
          ?_, ?_, ?_, ?_, ?_, ?_⟩
  all_goals intros
  all_goals
    first
      | exact ⟨rfl, rfl⟩
      | (rename_i h
         refine ⟨?_, ?_⟩ <;>
           simp [dpsw_open, dpsw_get_irq_status, dpsw_get_attributes,
                 dpsw_if_get_attributes, dpsw_if_get_link_state, dpsw_if_get_tci,
                 dpsw_if_get_counter, dpsw_fdb_dump, dpsw_get_api_version,
                 dpsw_if_get_port_mac_addr, dpsw_if_get_primary_mac_addr,
                 dpsw_acl_add, h])

/-- Witness for C4: a nonzero transport status (1) is returned verbatim by
`dpsw_open` and leaves the incoming token value 7 untouched. -/
theorem claim_C4_witness :
    (1 : Int) ≠ 0 ∧
    (dpsw_open 0 0 7 1 9).ret = 1 ∧ (dpsw_open 0 0 7 1 9).out = 7 :=
  ⟨by norm_num, claim_C4_status_and_outputs.1 0 0 7 1 9 (by norm_num)⟩

/-- Claim C10: exactly two operations, `dpsw_open` and `dpsw_get_api_version`,
encode session token 0 in the command header; every other public operation
encodes its caller-supplied token argument unchanged. -/
theorem claim_C10_token_encoding :
    (∀ (cf id tin : Nat) (err : Int) (rt : Nat),
      (dpsw_open cf id tin err rt).hdr.token = 0) ∧
    (∀ (cf mj mn : Nat) (err : Int) (rsp : dpsw_rsp_get_api_version),
      (dpsw_get_api_version cf mj mn err rsp).hdr.token = 0) ∧
    (∀ (cf tk : Nat) (err : Int), (dpsw_close cf tk err).hdr.token = tk) ∧
    (∀ (cf tk : Nat) (err : Int), (dpsw_enable cf tk err).hdr.token = tk) ∧
    (∀ (cf tk : Nat) (err : Int), (dpsw_disable cf tk err).hdr.token = tk) ∧
    (∀ (cf tk : Nat) (err : Int), (dpsw_reset cf tk err).hdr.token = tk) ∧
    (∀ (cf tk irq en : Nat) (err : Int),
      (dpsw_set_irq_enable cf tk irq en err).hdr.token = tk) ∧
    (∀ (cf tk irq mk : Nat) (err : Int),
      (dpsw_set_irq_mask cf tk irq mk err).hdr.token = tk) ∧
    (∀ (cf tk irq s : Nat) (err : Int) (rsp : dpsw_rsp_get_irq_status),
      (dpsw_get_irq_status cf tk irq s err rsp).hdr.token = tk) ∧
    (∀ (cf tk irq s : Nat) (err : Int),
      (dpsw_clear_irq_status cf tk irq s err).hdr.token = tk) ∧
    (∀ (cf tk : Nat) (a : dpsw_attr) (err : Int) (rsp : dpsw_rsp_get_attr),
      (dpsw_get_attributes cf tk a err rsp).hdr.token = tk) ∧
    (∀ (cf tk ifid : Nat) (a : dpsw_if_attr) (err : Int) (rsp : dpsw_rsp_if_get_attr),
      (dpsw_if_get_attributes cf tk ifid a err rsp).hdr.token = tk) ∧
    (∀ (cf tk ifid : Nat) (c : dpsw_link_cfg) (err : Int),
      (dpsw_if_set_link_cfg cf tk ifid c err).hdr.token = tk) ∧
    (∀ (cf tk ifid : Nat) (st : dpsw_link_state) (err : Int)
        (rsp : dpsw_rsp_if_get_link_state),
      (dpsw_if_get_link_state cf tk ifid st err rsp).hdr.token = tk) ∧
    (∀ (cf tk ifid en : Nat) (err : Int),
      (dpsw_if_set_flooding cf tk ifid en err).hdr.token = tk) ∧
    (∀ (cf tk ifid en : Nat) (err : Int),
      (dpsw_if_set_broadcast cf tk ifid en err).hdr.token = tk) ∧
    (∀ (cf tk ifid : Nat) (c : dpsw_tci_cfg) (err : Int),
      (dpsw_if_set_tci cf tk ifid c err).hdr.token = tk) ∧
    (∀ (cf tk ifid : Nat) (c : dpsw_tci_cfg) (err : Int) (rsp : dpsw_rsp_if_get_tci),
      (dpsw_if_get_tci cf tk ifid c err rsp).hdr.token = tk) ∧
    (∀ (cf tk ifid : Nat) (c : dpsw_stp_cfg) (err : Int),
      (dpsw_if_set_stp cf tk ifid c err).hdr.token = tk) ∧
    (∀ (cf tk ifid ty cin : Nat) (err : Int) (rsp : dpsw_rsp_if_get_counter),
      (dpsw_if_get_counter cf tk ifid ty cin err rsp).hdr.token = tk) ∧
    (∀ (cf tk ifid : Nat) (err : Int), (dpsw_if_enable cf tk ifid err).hdr.token = tk) ∧
    (∀ (cf tk ifid : Nat) (err : Int), (dpsw_if_disable cf tk ifid err).hdr.token = tk) ∧
    (∀ (cf tk ifid fl : Nat) (err : Int),
      (dpsw_if_set_max_frame_length cf tk ifid fl err).hdr.token = tk) ∧
    (∀ (cf tk vid : Nat) (c : dpsw_vlan_cfg) (err : Int),
      (dpsw_vlan_add cf tk vid c err).hdr.token = tk) ∧
    (∀ (cf tk vid : Nat) (c : dpsw_vlan_if_cfg) (err : Int),
      (dpsw_vlan_add_if cf tk vid c err).hdr.token = tk) ∧
    (∀ (cf tk vid : Nat) (c : dpsw_vlan_if_cfg) (err : Int),
      (dpsw_vlan_add_if_untagged cf tk vid c err).hdr.token = tk) ∧
    (∀ (cf tk vid : Nat) (c : dpsw_vlan_if_cfg) (err : Int),
      (dpsw_vlan_remove_if cf tk vid c err).hdr.token = tk) ∧
    (∀ (cf tk vid : Nat) (c : dpsw_vlan_if_cfg) (err : Int),
      (dpsw_vlan_remove_if_untagged cf tk vid c err).hdr.token = tk) ∧
    (∀ (cf tk vid : Nat) (err : Int), (dpsw_vlan_remove cf tk vid err).hdr.token = tk) ∧
    (∀ (cf tk fdb : Nat) (c : dpsw_fdb_unicast_cfg) (err : Int),
      (dpsw_fdb_add_unicast cf tk fdb c err).hdr.token = tk) ∧
    (∀ (cf tk fdb ia sz nin : Nat) (err : Int) (rsp : dpsw_rsp_fdb_dump),
      (dpsw_fdb_dump cf tk fdb ia sz nin err rsp).hdr.token = tk) ∧
    (∀ (cf tk fdb : Nat) (c : dpsw_fdb_unicast_cfg) (err : Int),
      (dpsw_fdb_remove_unicast cf tk fdb c err).hdr.token = tk) ∧
    (∀ (cf tk fdb : Nat) (c : dpsw_fdb_multicast_cfg) (err : Int),
      (dpsw_fdb_add_multicast cf tk fdb c err).hdr.token = tk) ∧
    (∀ (cf tk fdb : Nat) (c : dpsw_fdb_multicast_cfg) (err : Int),
      (dpsw_fdb_remove_multicast cf tk fdb c err).hdr.token = tk) ∧
    (∀ (cf tk fdb md : Nat) (err : Int),
      (dpsw_fdb_set_learning_mode cf tk fdb md err).hdr.token = tk) ∧
    (∀ (cf tk ifid : Nat) (m : Fin 6 → Nat) (err : Int) (rsp : dpsw_rsp_if_get_mac_addr),
      (dpsw_if_get_port_mac_addr cf tk ifid m err rsp).hdr.token = tk) ∧
    (∀ (cf tk ifid : Nat) (m : Fin 6 → Nat) (err : Int) (rsp : dpsw_rsp_if_get_mac_addr),
      (dpsw_if_get_primary_mac_addr cf tk ifid m err rsp).hdr.token = tk) ∧
    (∀ (cf tk ifid : Nat) (m : Fin 6 → Nat) (err : Int),
      (dpsw_if_set_primary_mac_addr cf tk ifid m err).hdr.token = tk) ∧
    (∀ (cf tk ain : Nat) (c : dpsw_acl_cfg) (err : Int) (rsp : dpsw_rsp_acl_add),
      (dpsw_acl_add cf tk ain c err rsp).hdr.token = tk) ∧
    (∀ (cf tk aid : Nat) (err : Int), (dpsw_acl_remove cf tk aid err).hdr.token = tk) ∧
    (∀ (cf tk aid : Nat) (c : dpsw_acl_if_cfg) (err : Int),
      (dpsw_acl_add_if cf tk aid c err).hdr.token = tk) ∧
    (∀ (cf tk aid : Nat) (c : dpsw_acl_if_cfg) (err : Int),
      (dpsw_acl_remove_if cf tk aid c err).hdr.token = tk) ∧
    (∀ (cf tk aid : Nat) (c : dpsw_acl_entry_cfg) (err : Int),
      (dpsw_acl_add_entry cf tk aid c err).hdr.token = tk) := by
  refine ⟨?_, ?_, ?_, ?_, ?_, ?_, ?_, ?_, ?_, ?_, ?_, ?_, ?_, ?_, ?_, ?_, ?_, ?_, ?_, ?_,
          ?_, ?_, ?_, ?_, ?_, ?_, ?_, ?_, ?_, ?_, ?_, ?_, ?_, ?_, ?_, ?_, ?_, ?_, ?_, ?_,
          ?_, ?_, ?_⟩
  all_goals intros
  all_goals rfl
